import Mathlib

/-!
Verification of the red_paperclip negotiation/valuation/coalition engine and
payment-retry protocol.

Each definition below is a shallow embedding of a Python function from the
repository, named after its source symbol where Lean allows it:

* `src/config/trade_config.py` — archetype constants, value weights, base costs
* `src/agents/agent.py` — appraisal pipeline (`appraise_item` and helpers)
* `src/negotiation/negotiation_module.py` — payoff splits, capsule alignment,
  acceptance probability
* `src/simulations/coalition_formation.py` — coalition registry operations
* `src/agents/x402_payment_handler_v2.py` — x402 payment handler and retry
  classification

Machine floats are modelled as exact rationals (`ℚ`): every quantity involved
in the claims is produced by +, *, /, min/max on small decimal constants, so
the rational semantics agrees with the source on every stated property.
Python exceptions raised by external collaborators are modelled with `Except`
parameters; `try/except` blocks become `match`es on those parameters.
-/

namespace RedPaperclip

/-! ### String helpers

Python operates on `str`; we model the relevant operations (`.lower()`,
`.split()`, substring `in`) on `List Char`.  `String.data` converts. -/

/-- `Char`-wise lowercasing, modelling Python `str.lower()` on the ASCII
identifiers and sentences that appear in the repository. -/
def lowerChars (l : List Char) : List Char := l.map Char.toLower

/-- `isPre pat s = true` iff `pat` is an initial segment of `s`. -/
def isPre : List Char → List Char → Bool
  | [], _ => true
  | _ :: _, [] => false
  | p :: ps, c :: cs => p == c && isPre ps cs

/-- `occursB pat s = true` iff `pat` occurs contiguously in `s`; models the
Python substring test `pat in s`. -/
def occursB (pat : List Char) : List Char → Bool
  | [] => isPre pat []
  | c :: t => isPre pat (c :: t) || occursB pat t

/-- Declarative version of the substring test. -/
def OccursIn (pat s : List Char) : Prop := ∃ l r, s = l ++ pat ++ r

theorem isPre_iff (pat s : List Char) : isPre pat s = true ↔ ∃ r, s = pat ++ r := by
  induction pat generalizing s with
  | nil => simp [isPre]
  | cons p ps ih =>
    cases s with
    | nil => simp [isPre]
    | cons c cs =>
      simp only [isPre, Bool.and_eq_true, beq_iff_eq, ih]
      constructor
      · rintro ⟨rfl, r, rfl⟩; exact ⟨r, rfl⟩
      · rintro ⟨r, h⟩
        injection h with h1 h2
        exact ⟨h1.symm, r, h2⟩

theorem occursB_iff (pat s : List Char) : occursB pat s = true ↔ OccursIn pat s := by
  induction s with
  | nil =>
    simp only [occursB, isPre_iff, OccursIn]
    constructor
    · rintro ⟨r, h⟩
      exact ⟨[], r, by simpa using h⟩
    · rintro ⟨l, r, h⟩
      refine ⟨r, ?_⟩
      cases l with
      | nil => simpa using h
      | cons a as => simp at h
  | cons c t ih =>
    simp only [occursB, Bool.or_eq_true, isPre_iff, ih, OccursIn]
    constructor
    · rintro (⟨r, h⟩ | ⟨l, r, h⟩)
      · exact ⟨[], r, by simpa using h⟩
      · exact ⟨c :: l, r, by simp [h]⟩
    · rintro ⟨l, r, h⟩
      cases l with
      | nil => exact Or.inl ⟨r, by simpa using h⟩
      | cons a as =>
        injection h with h1 h2
        exact Or.inr ⟨as, r, h2⟩

instance (pat s : List Char) : Decidable (OccursIn pat s) :=
  decidable_of_iff _ (occursB_iff pat s)

/-- Python `str.split()` on space-separated text (the repository's goals,
descriptions and categories are space-separated phrases): splits on runs of
`' '`, dropping empty tokens. -/
def splitWsAux : List Char → List Char → List (List Char)
  | [], cur => if cur.isEmpty then [] else [cur.reverse]
  | c :: t, cur =>
    if c = ' ' then
      (if cur.isEmpty then splitWsAux t [] else cur.reverse :: splitWsAux t [])
    else splitWsAux t (c :: cur)

def splitWs (s : List Char) : List (List Char) := splitWsAux s []

/-! ### `src/config/trade_config.py` -/

/-- One entry of `ARCHETYPE_CONFIG` (trade_config.py lines 28-47). -/
structure ArchetypeConfig where
  risk_multiplier : ℚ
  ugtt_bonus_multiplier : ℚ
  cost_sensitivity : ℚ
  drift_weight : ℚ
deriving DecidableEq

def visionaryConfig : ArchetypeConfig :=
  { risk_multiplier := 12/10, ugtt_bonus_multiplier := 11/10
    cost_sensitivity := 8/10, drift_weight := 13/10 }

def investorConfig : ArchetypeConfig :=
  { risk_multiplier := 8/10, ugtt_bonus_multiplier := 9/10
    cost_sensitivity := 12/10, drift_weight := 7/10 }

def defaultConfig : ArchetypeConfig :=
  { risk_multiplier := 1, ugtt_bonus_multiplier := 1
    cost_sensitivity := 1, drift_weight := 1 }

/-- `get_archetype_config`: dictionary lookup with fallback to `"default"`. -/
def getArchetypeConfig (archetype : String) : ArchetypeConfig :=
  if archetype = "visionary" then visionaryConfig
  else if archetype = "investor" then investorConfig
  else defaultConfig

/-- `VALUE_CONFIG["alignment_weight"]`. -/
def alignment_weight : ℚ := 3/10

/-! ### `agent.py` : `_apply_archetype_logic` (lines 915-948) -/

/-- Embedding of `AutonomousAgent._apply_archetype_logic`.  `alignmentWeight`
is `self.config["values"]["alignment_weight"]`; `totalCostUsd` is
`cost_breakdown["total_cost_usd"]`. -/
def applyArchetypeLogic (archetype : String) (alignmentWeight : ℚ)
    (baseValue driftAdjustment alignmentScore ugttBonus totalCostUsd : ℚ)
    (cfg : ArchetypeConfig) : ℚ :=
  let adjustedBase := baseValue + driftAdjustment * cfg.drift_weight
      + alignmentScore * alignmentWeight
  let ugttContribution := ugttBonus * cfg.ugtt_bonus_multiplier
  let totalCosts := totalCostUsd * cfg.cost_sensitivity
  if archetype = "visionary" then
    (adjustedBase + ugttContribution) * cfg.risk_multiplier - totalCosts
  else if archetype = "investor" then
    (adjustedBase - totalCosts) * (1 + ugttContribution * (1/10))
  else
    adjustedBase + ugttContribution - totalCosts

theorem applyArchetypeLogic_visionary (aw b dr al ug tc : ℚ) (cfg : ArchetypeConfig) :
    applyArchetypeLogic "visionary" aw b dr al ug tc cfg
      = (b + dr * cfg.drift_weight + al * aw + ug * cfg.ugtt_bonus_multiplier)
          * cfg.risk_multiplier - tc * cfg.cost_sensitivity := by
  simp only [applyArchetypeLogic]
  rw [if_pos (by decide)]

theorem applyArchetypeLogic_investor (aw b dr al ug tc : ℚ) (cfg : ArchetypeConfig) :
    applyArchetypeLogic "investor" aw b dr al ug tc cfg
      = (b + dr * cfg.drift_weight + al * aw - tc * cfg.cost_sensitivity)
          * (1 + ug * cfg.ugtt_bonus_multiplier * (1/10)) := by
  simp only [applyArchetypeLogic]
  rw [if_neg (by decide), if_pos (by decide)]

theorem applyArchetypeLogic_default (aw b dr al ug tc : ℚ) (cfg : ArchetypeConfig) :
    applyArchetypeLogic "default" aw b dr al ug tc cfg
      = b + dr * cfg.drift_weight + al * aw + ug * cfg.ugtt_bonus_multiplier
          - tc * cfg.cost_sensitivity := by
  simp only [applyArchetypeLogic]
  rw [if_neg (by decide), if_neg (by decide)]

/-- Claim C3: per archetype, the combination step yields — visionary:
`(base + drift·dw + alignment·aw + ugtt·ubm) × risk_multiplier − costs·cs`;
investor: `(base + drift·dw + alignment·aw − costs·cs) × (1 + ugtt·ubm×0.1)`;
default: `base + drift·dw + alignment·aw + ugtt·ubm − costs·cs`. -/
theorem C3_archetype_combination (aw b dr al ug tc : ℚ) (cfg : ArchetypeConfig) :
    applyArchetypeLogic "visionary" aw b dr al ug tc cfg
      = (b + dr * cfg.drift_weight + al * aw + ug * cfg.ugtt_bonus_multiplier)
          * cfg.risk_multiplier - tc * cfg.cost_sensitivity
  ∧ applyArchetypeLogic "investor" aw b dr al ug tc cfg
      = (b + dr * cfg.drift_weight + al * aw - tc * cfg.cost_sensitivity)
          * (1 + ug * cfg.ugtt_bonus_multiplier * (1/10))
  ∧ applyArchetypeLogic "default" aw b dr al ug tc cfg
      = b + dr * cfg.drift_weight + al * aw + ug * cfg.ugtt_bonus_multiplier
          - tc * cfg.cost_sensitivity :=
  ⟨applyArchetypeLogic_visionary aw b dr al ug tc cfg,
   applyArchetypeLogic_investor aw b dr al ug tc cfg,
   applyArchetypeLogic_default aw b dr al ug tc cfg⟩

/-- Final net value of the combination step for the configured constants of
the given archetype (config from `trade_config.py`, alignment weight 0.3). -/
def configuredFinal (archetype : String) (b dr al ug tc : ℚ) : ℚ :=
  applyArchetypeLogic archetype alignment_weight b dr al ug tc
    (getArchetypeConfig archetype)

/-- Claim C6 counterexample: with the configured constants
(visionary risk_multiplier = 1.2 > 1) and a positive ugtt bonus, a negative
base value makes the visionary final value *smaller* than the default one:
at base = −100, drift = 0, alignment = 0, ugtt = 1, costs = 0 the visionary
gets −118.68 < −100. -/
theorem C6_counterexample :
    (0 : ℚ) < 1
  ∧ 1 < visionaryConfig.risk_multiplier
  ∧ configuredFinal "visionary" (-100) 0 0 1 0
      < configuredFinal "default" (-100) 0 0 1 0 := by
  refine ⟨by norm_num, by norm_num [visionaryConfig], ?_⟩
  rw [configuredFinal, configuredFinal, applyArchetypeLogic_visionary,
    applyArchetypeLogic_default, getArchetypeConfig, getArchetypeConfig]
  rw [if_pos (by decide), if_neg (by decide), if_neg (by decide)]
  norm_num [visionaryConfig, defaultConfig, alignment_weight]

/-- Claim C6 (amended): with the configured archetype constants
(visionary risk_multiplier = 1.2 > 1), for identical inputs with positive
ugtt bonus *and nonnegative base value, drift adjustment, alignment score and
total cost*, the visionary final net value is ≥ the default final net value. -/
theorem C6_amended (b dr al ug tc : ℚ) (hb : 0 ≤ b) (hdr : 0 ≤ dr)
    (hal : 0 ≤ al) (hug : 0 < ug) (htc : 0 ≤ tc) :
    configuredFinal "default" b dr al ug tc
      ≤ configuredFinal "visionary" b dr al ug tc := by
  rw [configuredFinal, configuredFinal, applyArchetypeLogic_visionary,
    applyArchetypeLogic_default, getArchetypeConfig, getArchetypeConfig]
  rw [if_neg (by decide), if_neg (by decide), if_pos (by decide)]
  simp only [visionaryConfig, defaultConfig, alignment_weight]
  nlinarith [hb, hdr, hal, hug.le, htc]

/-- Concrete instance of `C6_amended` at base 100, drift 1, alignment 1,
ugtt 1, cost 1. -/
theorem C6_amended_witness :
    configuredFinal "default" 100 1 1 1 1 ≤ configuredFinal "visionary" 100 1 1 1 1 :=
  C6_amended 100 1 1 1 1 (by norm_num) (by norm_num) (by norm_num)
    (by norm_num) (by norm_num)

/-! ### `x402_payment_handler_v2.py` : `X402ErrorHandler.should_retry`
(lines 55-69) -/

/-- The substrings `should_retry` scans for (`retryable_errors`). -/
def retryable_errors : List String := ["expired", "network", "timeout", "connection"]

/-- Embedding of `X402ErrorHandler.should_retry`: no retry once
`attempt >= max_retries`; otherwise retry iff the lowercased error message
contains one of the `retryable_errors` substrings. -/
def should_retry (maxRetries : ℕ) (error : String) (attempt : ℕ) : Bool :=
  if maxRetries ≤ attempt then false
  else
    let errorStr := lowerChars error.data
    retryable_errors.any (fun e => occursB e.data errorStr)

/-- Retryable classes as the claim words them: network/timeout/expired. -/
def c7ClaimRetryable (error : String) : Prop :=
  ∃ tok ∈ ["network", "timeout", "expired"],
    OccursIn (String.data tok) (lowerChars error.data)

/-- Claim C7 counterexample: the error "connection refused" is retried by the
code (substring "connection" is in its retryable list) although it matches
none of the claim's three classes network/timeout/expired. -/
theorem C7_counterexample :
    should_retry 3 "connection refused" 0 = true
  ∧ ¬ c7ClaimRetryable "connection refused" := by
  constructor
  · decide
  · unfold c7ClaimRetryable
    decide

/-- Claim C7 (amended): the classifier retries iff the attempt count is below
`max_retries` and the lowercased error message contains one of the retryable
substrings expired/network/timeout/connection; every other error is not
retried. -/
theorem C7_amended (maxRetries attempt : ℕ) (error : String) :
    should_retry maxRetries error attempt = true ↔
      attempt < maxRetries ∧ ∃ tok ∈ retryable_errors,
        OccursIn (String.data tok) (lowerChars error.data) := by
  unfold should_retry
  by_cases h : maxRetries ≤ attempt
  · simp [h, Nat.not_lt.mpr h]
  · simp only [if_neg h, List.any_eq_true, occursB_iff]
    simp [Nat.lt_of_not_le h, Nat.not_le.mp h]

/-! ### `negotiation_module.py` : `NegotiationModule.propose_split`
(lines 22-62) -/

/-- Embedding of `NegotiationModule.propose_split`.  `repOf a` is the agent
memory lookup `self.agent_memories.get(a)`: `none` models a missing memory
(reputation defaults to 1.0), `some r` a memory whose `get_reputation()`
returns `r`.  A Python dict comprehension over `members` keeps one key per
distinct member (`members.dedup`), while `total_reputation` accumulates over
the whole list, duplicates included. -/
def propose_split (repOf : String → Option ℚ) (total_payoff : ℚ)
    (members : List String) : List (String × ℚ) :=
  let reputation : String → ℚ := fun a => (repOf a).getD 1
  let total_reputation : ℚ := (members.map reputation).sum
  if total_reputation = 0 then
    (members.dedup).map (fun a => (a, total_payoff / (members.length : ℚ)))
  else
    (members.dedup).map (fun a => (a, reputation a / total_reputation * total_payoff))

/-- Claim C1 counterexample: on the non-empty member list `["a", "a"]`
(a duplicated member) with every reputation defaulting to 1.0, the shares sum
to half of the pooled payoff: the dict keeps a single key `"a"` with share
`1/2 × 1`, while `total_reputation` counts the duplicate twice. -/
theorem C1_counterexample :
    (["a", "a"] : List String) ≠ []
  ∧ ((propose_split (fun _ => none) 1 ["a", "a"]).map Prod.snd).sum = 1/2
  ∧ ¬ (|((propose_split (fun _ => none) 1 ["a", "a"]).map Prod.snd).sum - 1|
        ≤ 1/1000000) := by
  have h : propose_split (fun _ => none) 1 ["a", "a"] = [("a", 1/2)] := by
    simp [propose_split]
    norm_num
  refine ⟨by simp, by rw [h]; norm_num, ?_⟩
  intro hcontra
  rw [h] at hcontra
  simp only [List.map_cons, List.map_nil, List.sum_cons, List.sum_nil, add_zero] at hcontra
  rw [abs_le] at hcontra
  have h2 := hcontra.1
  norm_num at h2

/-- Claim C1 (amended): for every *duplicate-free* non-empty list of coalition
members and every pooled payoff, `propose_split` assigns a share to exactly
the listed members, computed as `reputation/total_reputation × payoff` (equal
split when the total reputation is 0), and the shares sum to the pooled
payoff exactly (hence within 1e-6). -/
theorem C1_amended (repOf : String → Option ℚ) (payoff : ℚ)
    (members : List String) (hne : members ≠ []) (hnd : members.Nodup) :
    ((propose_split repOf payoff members).map Prod.fst = members)
  ∧ (∀ p ∈ propose_split repOf payoff members,
      p.2 = if (members.map (fun a => ((repOf a).getD 1))).sum = 0
            then payoff / (members.length : ℚ)
            else ((repOf p.1).getD 1)
                  / (members.map (fun a => ((repOf a).getD 1))).sum * payoff)
  ∧ ((propose_split repOf payoff members).map Prod.snd).sum = payoff := by
  have hdedup : members.dedup = members := hnd.dedup
  have hlen : (members.length : ℚ) ≠ 0 := by
    simpa using (List.length_pos.mpr hne).ne'
  refine ⟨?_, ?_, ?_⟩
  · unfold propose_split
    by_cases h0 : (members.map (fun a => ((repOf a).getD 1))).sum = 0
    · rw [if_pos h0, hdedup, List.map_map]
      exact List.map_id members
    · rw [if_neg h0, hdedup, List.map_map]
      exact List.map_id members
  · intro p hp
    unfold propose_split at hp
    by_cases h0 : (members.map (fun a => ((repOf a).getD 1))).sum = 0 <;>
      simp only [h0, if_pos, if_neg, if_true, if_false, ite_true, ite_false,
        List.mem_map, hdedup] at hp ⊢
    · obtain ⟨a, _, rfl⟩ := hp
      simp [h0]
    · obtain ⟨a, _, rfl⟩ := hp
      simp [h0]
  · unfold propose_split
    by_cases h0 : (members.map (fun a => ((repOf a).getD 1))).sum = 0
    · rw [if_pos h0, hdedup]
      rw [List.map_map]
      have : (Prod.snd ∘ fun a => (a, payoff / (members.length : ℚ)))
          = fun _ : String => payoff / (members.length : ℚ) := rfl
      rw [this, List.map_const', List.sum_replicate, nsmul_eq_mul]
      field_simp
    · rw [if_neg h0, hdedup]
      rw [List.map_map]
      have h1 : (Prod.snd ∘ fun a => (a, ((repOf a).getD 1)
            / (members.map (fun a => ((repOf a).getD 1))).sum * payoff))
          = fun a => ((repOf a).getD 1)
            * (payoff / (members.map (fun a => ((repOf a).getD 1))).sum) := by
        funext a
        simp [Function.comp, div_mul_eq_mul_div, mul_div_assoc]
      rw [h1, List.sum_map_mul_right]
      field_simp

/-- Concrete instance of `C1_amended`: members `["a", "b"]`, payoff 3, both
reputations defaulting to 1.0, the shares sum to the pooled payoff. -/
theorem C1_amended_witness :
    ((propose_split (fun _ => none) 3 ["a", "b"]).map Prod.snd).sum = 3 :=
  (C1_amended (fun _ => none) 3 ["a", "b"] (by simp) (by decide)).2.2

/-! ### `agent.py` : hybrid base-value calculation (lines 763-798, 1001-1070) -/

/-- Helper: `List.any` over the Bool substring test, as a bounded existential. -/
theorem any_occursB_iff (l : List (List Char)) (s : List Char) :
    (l.any (fun w => occursB w s) = true) ↔ ∃ w ∈ l, OccursIn w s := by
  simp [List.any_eq_true, occursB_iff]

theorem any_tag_occursB_iff (tags : List String) (s : List Char) :
    (tags.any (fun t => occursB (lowerChars t.data) s) = true)
      ↔ ∃ t ∈ tags, OccursIn (lowerChars t.data) s := by
  simp [List.any_eq_true, occursB_iff]

/-- Embedding of `AutonomousAgent._calculate_category_interest`
(agent.py lines 1001-1027): keyword matching of the item *category* against
the agent's goal and tags. -/
def calculate_category_interest (goal : String) (tags : List String)
    (category : String) : ℚ :=
  if category = "" then 1
  else
    let category_lower := lowerChars category.data
    let goal_lower := lowerChars goal.data
    if (splitWs category_lower).any (fun w => occursB w goal_lower) then 3/2
    else if tags.any (fun t => occursB (lowerChars t.data) category_lower) then 13/10
    else 1

/-- Embedding of `AutonomousAgent._get_condition_multiplier`
(agent.py lines 1029-1038): note the dictionary key is `"very good"`
(with a space). -/
def get_condition_multiplier (condition : String) : ℚ :=
  let c := lowerChars condition.data
  if c = "excellent".data then 6/5
  else if c = "very good".data then 11/10
  else if c = "good".data then 1
  else if c = "fair".data then 4/5
  else if c = "poor".data then 3/5
  else 1

/-- `positive_words` from `_parse_market_context`. -/
def positive_words : List String :=
  ["growth", "rising", "strong", "bullish", "increasing", "demand"]

/-- `negative_words` from `_parse_market_context`. -/
def negative_words : List String :=
  ["decline", "falling", "weak", "bearish", "decreasing", "oversupply"]

/-- Embedding of `AutonomousAgent._parse_market_context`
(agent.py lines 1040-1050): sentiment modifier
`1 + 0.1 × (positive − negative substring counts)`. -/
def parse_market_context (marketContext : String) : ℚ :=
  if marketContext = "" then 1
  else
    let cl := lowerChars marketContext.data
    let positive_count := (positive_words.filter (fun w => occursB w.data cl)).length
    let negative_count := (negative_words.filter (fun w => occursB w.data cl)).length
    1 + ((positive_count : ℚ) - (negative_count : ℚ)) * (1/10)

/-- Embedding of `AutonomousAgent._fallback_value_calculation`
(agent.py lines 795-798). -/
def fallback_value_calculation (marketValue : ℚ) : ℚ := marketValue * (8/10)

/-- Embedding of `AutonomousAgent._hybrid_value_calculation`
(agent.py lines 763-793).  `marketCtxResult` models the Reality Query
collaborator: `.error` when `query_reality` raises (then the `except` branch
falls back to `market_value × 0.8`), `.ok res` for a reply whose `result`
field is `res`. -/
def hybrid_value_calculation (goal : String) (tags : List String)
    (marketValue : ℚ) (category condition : String)
    (marketCtxResult : Except Unit String) : ℚ :=
  match marketCtxResult with
  | .error _ => fallback_value_calculation marketValue
  | .ok res =>
    let base_value := marketValue * calculate_category_interest goal tags category
        * get_condition_multiplier condition
    base_value * parse_market_context res

/-- Category interest as Claim C4 words it: keyed on the item *description*
(1.5 when a goal keyword appears in the description, 1.3 when a tag does). -/
def c4ClaimCategoryInterest (goal : String) (tags : List String)
    (description : String) : ℚ :=
  if (splitWs (lowerChars goal.data)).any
      (fun w => occursB w (lowerChars description.data)) then 3/2
  else if tags.any (fun t => occursB (lowerChars t.data) (lowerChars description.data))
    then 13/10
  else 1

/-- Condition multiplier as Claim C4 words it (key `very_good`). -/
def c4ClaimConditionMultiplier (condition : String) : ℚ :=
  if condition = "excellent" then 6/5
  else if condition = "very_good" then 11/10
  else if condition = "good" then 1
  else if condition = "fair" then 4/5
  else if condition = "poor" then 3/5
  else 1

/-- Base value as Claim C4 words it: no market modifier, description-keyed
category interest. -/
def c4ClaimBaseValue (goal : String) (tags : List String)
    (description condition : String) (mv : ℚ) : ℚ :=
  mv * c4ClaimCategoryInterest goal tags description
     * c4ClaimConditionMultiplier condition

/-- Claim C4 counterexample: agent goal "collect art", item description
"fine art piece", category "", condition "good", market value 100, neutral
market context.  The claim's formula gives 100 × 1.5 × 1.0 = 150 (the goal
keyword "art" appears in the description), but the code keys category
interest on the *category* string (here empty ⇒ 1.0) and returns 100. -/
theorem C4_counterexample :
    hybrid_value_calculation "collect art" [] 100 "" "good" (.ok "") = 100
  ∧ c4ClaimBaseValue "collect art" [] "fine art piece" "good" 100 = 150
  ∧ (100 : ℚ) ≠ 150 := by
  refine ⟨?_, ?_, by norm_num⟩
  · show (100 : ℚ) * calculate_category_interest "collect art" [] ""
        * get_condition_multiplier "good" * parse_market_context "" = 100
    rw [calculate_category_interest, if_pos rfl]
    rw [get_condition_multiplier]
    rw [if_neg (by decide), if_neg (by decide), if_pos (by decide)]
    rw [parse_market_context, if_pos rfl]
    norm_num
  · rw [c4ClaimBaseValue, c4ClaimCategoryInterest, if_pos (by decide)]
    rw [c4ClaimConditionMultiplier]
    rw [if_neg (by decide), if_neg (by decide), if_pos (by decide)]
    norm_num

/-- Rewriting of the embedded category interest with declarative conditions. -/
theorem calculate_category_interest_eq (goal : String) (tags : List String)
    (category : String) :
    calculate_category_interest goal tags category
      = (if category ≠ "" ∧ ∃ w ∈ splitWs (lowerChars category.data),
              OccursIn w (lowerChars goal.data) then 3/2
         else if category ≠ "" ∧ ∃ t ∈ tags,
              OccursIn (lowerChars t.data) (lowerChars category.data) then 13/10
         else 1) := by
  by_cases hcat : category = ""
  · simp [calculate_category_interest, hcat]
  · unfold calculate_category_interest
    rw [if_neg hcat]
    simp only [ne_eq, hcat, not_false_eq_true, true_and]
    by_cases h1 : ∃ w ∈ splitWs (lowerChars category.data),
        OccursIn w (lowerChars goal.data)
    · rw [if_pos ((any_occursB_iff _ _).mpr h1), if_pos h1]
    · rw [if_neg (fun hc => h1 ((any_occursB_iff _ _).mp hc)), if_neg h1]
      by_cases h2 : ∃ t ∈ tags, OccursIn (lowerChars t.data) (lowerChars category.data)
      · rw [if_pos ((any_tag_occursB_iff _ _).mpr h2), if_pos h2]
      · rw [if_neg (fun hc => h2 ((any_tag_occursB_iff _ _).mp hc)), if_neg h2]

/-- Claim C4 (amended): when the LLM path is not taken and the market-context
collaborator answers, the base value equals
`market_value × category_interest × condition_multiplier × market_modifier`,
where category interest is keyed on the item *category* (1.5 when a category
word occurs in the goal, 1.3 when a tag occurs in the category, 1.0 otherwise
or when the category is empty), the condition multiplier maps
excellent→1.2, "very good"→1.1, good→1.0, fair→0.8, poor→0.6 with default 1.0
(so the underscored spelling `very_good` gets the default 1.0), and the
market modifier is the sentiment factor of the market-context result. -/
theorem C4_amended (goal : String) (tags : List String) (mv : ℚ)
    (category condition res : String) :
    (hybrid_value_calculation goal tags mv category condition (.ok res)
      = mv * (if category ≠ "" ∧ ∃ w ∈ splitWs (lowerChars category.data),
                  OccursIn w (lowerChars goal.data) then 3/2
              else if category ≠ "" ∧ ∃ t ∈ tags,
                  OccursIn (lowerChars t.data) (lowerChars category.data) then 13/10
              else 1)
           * get_condition_multiplier condition * parse_market_context res)
  ∧ get_condition_multiplier "excellent" = 6/5
  ∧ get_condition_multiplier "very good" = 11/10
  ∧ get_condition_multiplier "very_good" = 1
  ∧ get_condition_multiplier "good" = 1
  ∧ get_condition_multiplier "fair" = 4/5
  ∧ get_condition_multiplier "poor" = 3/5
  ∧ get_condition_multiplier "like new" = 1 := by
  refine ⟨?_, ?_, ?_, ?_, ?_, ?_, ?_, ?_⟩
  · show mv * calculate_category_interest goal tags category
        * get_condition_multiplier condition * parse_market_context res = _
    rw [calculate_category_interest_eq]
  all_goals
    rw [get_condition_multiplier]
  · rw [if_pos (by decide)]
  · rw [if_neg (by decide), if_pos (by decide)]
  · rw [if_neg (by decide), if_neg (by decide), if_neg (by decide),
      if_neg (by decide), if_neg (by decide)]
  · rw [if_neg (by decide), if_neg (by decide), if_pos (by decide)]
  · rw [if_neg (by decide), if_neg (by decide), if_neg (by decide),
      if_pos (by decide)]
  · rw [if_neg (by decide), if_neg (by decide), if_neg (by decide),
      if_neg (by decide), if_pos (by decide)]
  · rw [if_neg (by decide), if_neg (by decide), if_neg (by decide),
      if_neg (by decide), if_neg (by decide)]

/-! ### `negotiation_module.py` : capsule alignment and acceptance
probability (lines 207-249 and 460-494) -/

/-- Python set Jaccard ratio as `_calculate_capsule_alignment` computes it:
`len(common) / max(len(total), 1)` on the two deduplicated collections, and
`0.5` when the union is empty. -/
def pySetSimilarity {α : Type} [DecidableEq α] (l1 l2 : List α) : ℚ :=
  let u1 := l1.dedup
  let u2 := l2.dedup
  let commonCard := (u1.filter (fun x => decide (x ∈ u2))).length
  let totalCard := u1.length + (u2.filter (fun x => decide (x ∉ u1))).length
  if totalCard = 0 then 1/2
  else (commonCard : ℚ) / ((max totalCard 1 : ℕ) : ℚ)

theorem pySetSimilarity_self {α : Type} [DecidableEq α] (l : List α)
    (h : l ≠ []) : pySetSimilarity l l = 1 := by
  have h1 : l.dedup.filter (fun x => decide (x ∈ l.dedup)) = l.dedup :=
    List.filter_eq_self.mpr (fun a ha => by simpa using ha)
  have h2 : l.dedup.filter (fun x => decide (x ∉ l.dedup)) = [] :=
    List.filter_eq_nil_iff.mpr (fun a ha => by simpa using ha)
  simp only [pySetSimilarity]
  rw [h1, h2]
  have hne : l.dedup ≠ [] := fun hc => h ((List.dedup_eq_nil l).mp hc)
  have hpos : 0 < l.dedup.length := List.length_pos.mpr hne
  rw [if_neg (by simpa using hpos.ne')]
  rw [List.length_nil, Nat.add_zero, Nat.max_eq_left hpos]
  exact div_self (by exact_mod_cast hpos.ne')

/-- The capsule fields `_calculate_capsule_alignment` inspects: goal text,
keys of the values mapping, tags. -/
structure CapsuleData where
  goal : String
  valuesKeys : List String
  tags : List String

/-- Embedding of `NegotiationModule._calculate_capsule_alignment`
(lines 207-249): weighted Jaccard similarity of goal words (0.5), value keys
(0.3) and tags (0.2), each defaulting to 0.5 when either side is empty.
This is the method the acceptance-probability code *intends* to call. -/
def calculate_capsule_alignment_intended (a1 a2 : CapsuleData) : ℚ :=
  let goal_similarity : ℚ :=
    if a1.goal ≠ "" ∧ a2.goal ≠ "" then
      pySetSimilarity (splitWs (lowerChars a1.goal.data))
        (splitWs (lowerChars a2.goal.data))
    else 1/2
  let value_similarity : ℚ :=
    if a1.valuesKeys ≠ [] ∧ a2.valuesKeys ≠ [] then
      pySetSimilarity a1.valuesKeys a2.valuesKeys
    else 1/2
  let tag_similarity : ℚ :=
    if a1.tags ≠ [] ∧ a2.tags ≠ [] then pySetSimilarity a1.tags a2.tags
    else 1/2
  goal_similarity * (5/10) + value_similarity * (3/10) + tag_similarity * (2/10)

/-- The methods defined on class `NegotiationModule`
(negotiation_module.py).  Note that `calculate_capsule_alignment` (without
the leading underscore) is *not* among them. -/
def negotiationModuleMethodNames : List String :=
  ["__init__", "propose_split", "propose_trade_with_pitch",
   "propose_coalition_with_pitch", "_get_agent_capsule",
   "_calculate_acceptance_probability", "_calculate_capsule_alignment",
   "_log_trade_proposal", "_log_coalition_proposal", "_log_pitch_reception",
   "negotiate_trade_with_appraisal", "evaluate_proposal_with_appraisal",
   "_calculate_acceptance_probability_with_appraisal",
   "_log_trade_with_appraisal", "_log_proposal_evaluation",
   "get_trade_history", "get_agent_trade_stats"]

/-- Embedding of
`NegotiationModule._calculate_acceptance_probability_with_appraisal`
(lines 460-494).  The body calls `self.calculate_capsule_alignment(...)`,
but the class only defines `_calculate_capsule_alignment`, so the attribute
lookup raises `AttributeError`; the enclosing `except` returns the default
probability 0.3.  `pitchCost` models `pitch_result`: `none` when absent,
`some c` for a pitch whose `cost` is `c`. -/
def calc_acceptance_probability_with_appraisal (initiator target : CapsuleData)
    (finalNetValue : ℚ) (pitchCost : Option ℚ) : ℚ :=
  if negotiationModuleMethodNames.contains "calculate_capsule_alignment" then
    let base_alignment := calculate_capsule_alignment_intended initiator target
    let appraisal_factor := min (finalNetValue / 100) 1
    let pitch_factor : ℚ :=
      match pitchCost with
      | none => 0
      | some c => if c = 0 then 1/10 else if 0 < c then 2/10 else 0
    max 0 (min 1 (base_alignment * (6/10) + appraisal_factor * (3/10) + pitch_factor))
  else 3/10

/-- Acceptance probability as Claim C5 words it:
`0.6×alignment + 0.3×normalize(final_net_value) + pitch_bonus`, clamped. -/
def c5ClaimProbability (initiator target : CapsuleData)
    (finalNetValue : ℚ) (pitchCost : Option ℚ) : ℚ :=
  let alignment := calculate_capsule_alignment_intended initiator target
  let pitch_bonus : ℚ :=
    match pitchCost with
    | none => 0
    | some c => if c = 0 then 1/10 else if 0 < c then 2/10 else 0
  max 0 (min 1 (alignment * (6/10) + (min (finalNetValue / 100) 1) * (3/10) + pitch_bonus))

/-- A concrete capsule for exercising the acceptance probability. -/
def c5Capsule : CapsuleData :=
  { goal := "maximize trade value", valuesKeys := ["efficiency"], tags := ["trader"] }

/-- Claim C5: the acceptance-probability code always returns 0.3, never the
claimed formula.  With two identical capsules (alignment 1), final net value
100 and a paid pitch, the claimed formula clamps 0.6+0.3+0.2 to 1, but the
code returns 0.3: the call `self.calculate_capsule_alignment` names a method
that does not exist (`_calculate_capsule_alignment` does), so the
`AttributeError` is swallowed and the 0.3 default is returned. -/
theorem C5_code_bug :
    calc_acceptance_probability_with_appraisal c5Capsule c5Capsule 100 (some 1) = 3/10
  ∧ c5ClaimProbability c5Capsule c5Capsule 100 (some 1) = 1
  ∧ ((3 : ℚ)/10) ≠ 1 := by
  have halign : calculate_capsule_alignment_intended c5Capsule c5Capsule = 1 := by
    unfold calculate_capsule_alignment_intended c5Capsule
    rw [if_pos (by decide), if_pos (by decide), if_pos (by decide)]
    rw [pySetSimilarity_self _ (by decide), pySetSimilarity_self _ (by decide),
      pySetSimilarity_self _ (by decide)]
    norm_num
  refine ⟨?_, ?_, by norm_num⟩
  · rw [calc_acceptance_probability_with_appraisal, if_neg (by decide)]
  · simp only [c5ClaimProbability, halign]
    norm_num [min_def, max_def]

/-! ### `agent.py` : the full appraisal pipeline (lines 617-998) -/

/-- Words of a list of strings joined by spaces:
`' '.join(str(v) for v in values.values())`. -/
def joinSpaceData (l : List String) : List Char :=
  List.intercalate [' '] (l.map String.data)

/-- `len(xs.intersection(ys))` for deduplicated word lists. -/
def interCount (xs ys : List (List Char)) : ℕ :=
  (xs.filter (fun w => decide (w ∈ ys))).length

/-- Embedding of `AutonomousAgent._calculate_drift_adjustment`
(agent.py lines 800-814).  `history` holds the `final_net_value` of each past
appraisal, oldest first. -/
def calculate_drift_adjustment (history : List ℚ) : ℚ :=
  if 3 < history.length then
    let recent := history.drop (history.length - 3)
    ((recent.getLast?.getD 0) - (recent.head?.getD 0)) / 3 * (1/10)
  else 0

/-- Embedding of `AutonomousAgent._calculate_goal_alignment`
(agent.py lines 816-841): keyword-overlap ratios against the goal and the
stringified values, averaged with the optional target capsule's goal overlap,
scaled ×20. -/
def calculate_goal_alignment (goal : String) (valuesVals : List String)
    (description : String) (targetGoal : Option String) : ℚ :=
  let item_keywords := (splitWs (lowerChars description.data)).dedup
  let goal_keywords := (splitWs (lowerChars goal.data)).dedup
  let value_keywords := (splitWs (lowerChars (joinSpaceData valuesVals))).dedup
  let goal_overlap : ℚ :=
    (interCount item_keywords goal_keywords : ℚ)
      / ((max goal_keywords.length 1 : ℕ) : ℚ)
  let value_overlap : ℚ :=
    (interCount item_keywords value_keywords : ℚ)
      / ((max value_keywords.length 1 : ℕ) : ℚ)
  let alignment_score := (goal_overlap + value_overlap) * (5/10)
  let alignment_score :=
    match targetGoal with
    | none => alignment_score
    | some tg =>
      let target_goal_keywords := (splitWs (lowerChars tg.data)).dedup
      let target_overlap : ℚ :=
        (interCount item_keywords target_goal_keywords : ℚ)
          / ((max target_goal_keywords.length 1 : ℕ) : ℚ)
      (alignment_score + target_overlap) * (5/10)
  alignment_score * 20

/-- Confidence/strategy pair returned by the UGTT strategy module. -/
structure StrategyResult where
  confidence : ℚ
  strategy : String

/-- The `strategy_bonuses` dictionary in `_calculate_ugtt_bonus`
(default 0 for unknown strategies). -/
def strategy_bonuses (strategy : String) : ℚ :=
  if strategy = "cooperative" then 5
  else if strategy = "competitive" then 3
  else if strategy = "neutral" then 0
  else if strategy = "aggressive" then -2
  else 0

/-- Embedding of `AutonomousAgent._calculate_ugtt_bonus`
(agent.py lines 843-878).  `ugttResult` models the strategic-game
collaborator `self.ugtt_module.execute_strategy`: `.error` when it raises
(then the `except` branch returns 0.0). -/
def calculate_ugtt_bonus (ugttResult : Except Unit StrategyResult) : ℚ :=
  match ugttResult with
  | .error _ => 0
  | .ok r => r.confidence * 10 + strategy_bonuses r.strategy

/-- The cost dictionary built by `_calculate_total_costs`. -/
structure CostBreakdown where
  gas_cost_usd : ℚ
  x402_fee_usd : ℚ
  coalition_share : ℚ
  pitch_cost_xp : ℚ
  pitch_cost_usd : ℚ
  total_cost_usd : ℚ

/-- `BASE_SEPOLIA_CONFIG["gas_cost_usd"]`. -/
def gas_cost_usd : ℚ := 1/10000

/-- `X402_PAYMENT_CONFIG["base_fee_usd"]`. -/
def x402_base_fee_usd : ℚ := 1/1000

/-- `X402_PAYMENT_CONFIG["coalition_profit_share"]`. -/
def coalition_profit_share : ℚ := 5/100

/-- `X402_PAYMENT_CONFIG["pitch_cost_xp"]`. -/
def pitch_cost_xp : ℚ := 5

/-- `X402_PAYMENT_CONFIG["pitch_cost_usd"]`. -/
def pitch_cost_usd : ℚ := 1/100

/-- `X402_PAYMENT_CONFIG["premium_pitch_threshold"]`. -/
def premium_pitch_threshold : ℚ := 10

/-- Embedding of `AutonomousAgent._calculate_total_costs`
(agent.py lines 880-913), with `calculate_base_costs` from trade_config.py
inlined as the constant base costs. -/
def calculate_total_costs (enablePitch : Bool) (context : String)
    (agentXp : ℚ) : CostBreakdown :=
  let base_total := gas_cost_usd + x402_base_fee_usd
  let cShare : ℚ := if context = "coalition" then coalition_profit_share else 0
  let total1 := base_total + cShare
  let pxp : ℚ :=
    if enablePitch then (if premium_pitch_threshold ≤ agentXp then pitch_cost_xp else 0)
    else 0
  let pusd : ℚ :=
    if enablePitch then (if premium_pitch_threshold ≤ agentXp then 0 else pitch_cost_usd)
    else 0
  { gas_cost_usd := gas_cost_usd, x402_fee_usd := x402_base_fee_usd,
    coalition_share := cShare, pitch_cost_xp := pxp, pitch_cost_usd := pusd,
    total_cost_usd := total1 + pusd }

/-- Embedding of `AutonomousAgent._llm_value_calculation`
(agent.py lines 722-760).  `llmResp` models the shared LLM collaborator:
`none` when `get_shared_llm()` returns nothing, `some (.error _)` when
`generate_text` raises, `some (.ok none)` when the reply contains no number,
`some (.ok (some v))` for a parsed numeric value.  All three failure shapes
fall through to the hybrid calculation. -/
def llm_value_calculation (llmResp : Option (Except Unit (Option ℚ)))
    (hybridVal : ℚ) : ℚ :=
  match llmResp with
  | none => hybridVal
  | some (.error _) => hybridVal
  | some (.ok none) => hybridVal
  | some (.ok (some v)) => v

/-- Embedding of `AutonomousAgent._calculate_base_subjective_value`
(agent.py lines 709-720).  Its `try/except` (fallback to
`_fallback_value_calculation`) is unreachable here because every modelled
collaborator failure is already handled inside the two branches. -/
def calculate_base_subjective_value (llmEnabled : Bool)
    (llmResp : Option (Except Unit (Option ℚ))) (goal : String)
    (tags : List String) (marketValue : ℚ) (category condition : String)
    (marketCtxResult : Except Unit String) : ℚ :=
  let hybridVal := hybrid_value_calculation goal tags marketValue category
      condition marketCtxResult
  if llmEnabled then llm_value_calculation llmResp hybridVal else hybridVal

/-- The appraisal record assembled by `appraise_item` (the fields the claims
inspect). -/
structure AppraisalResult where
  base_value : ℚ
  drift : ℚ
  alignment : ℚ
  ugtt_bonus : ℚ
  total_cost_usd : ℚ
  final_net_value : ℚ
  decision : String

/-- Inputs of one `appraise_item` call: the agent's capsule fields and
history, the item metadata, and the three collaborator outcomes. -/
structure AppraisalInputs where
  goal : String
  tags : List String
  valuesVals : List String
  archetype : String
  history : List ℚ
  agentXp : ℚ
  marketValue : ℚ
  category : String
  condition : String
  description : String
  targetGoal : Option String
  enablePitch : Bool
  context : String
  llmEnabled : Bool
  llmResp : Option (Except Unit (Option ℚ))
  marketCtxResult : Except Unit String
  ugttResult : Except Unit StrategyResult

/-- Embedding of `AutonomousAgent.appraise_item` (agent.py lines 617-707):
steps 1-5 and 7 of the pipeline (LLM reasoning text and logging omitted —
they do not affect the returned values).  All modelled collaborator failures
are handled inside the steps, so the function always returns a result record
with decision `accept` iff the final net value is positive. -/
def appraise_item (inp : AppraisalInputs) : AppraisalResult :=
  let base_value := calculate_base_subjective_value inp.llmEnabled inp.llmResp
      inp.goal inp.tags inp.marketValue inp.category inp.condition inp.marketCtxResult
  let drift := calculate_drift_adjustment inp.history
  let alignment := calculate_goal_alignment inp.goal inp.valuesVals
      inp.description inp.targetGoal
  let ugtt := calculate_ugtt_bonus inp.ugttResult
  let costs := calculate_total_costs inp.enablePitch inp.context inp.agentXp
  let cfg := getArchetypeConfig inp.archetype
  let final := applyArchetypeLogic inp.archetype alignment_weight base_value
      drift alignment ugtt costs.total_cost_usd cfg
  { base_value := base_value, drift := drift, alignment := alignment,
    ugtt_bonus := ugtt, total_cost_usd := costs.total_cost_usd,
    final_net_value := final,
    decision := if 0 < final then "accept" else "reject" }

/-- A concrete appraisal input whose strategic-game collaborator throws while
the market-context collaborator answers normally. -/
def c9Inputs : AppraisalInputs :=
  { goal := "win", tags := [], valuesVals := [], archetype := "default",
    history := [], agentXp := 0, marketValue := 100, category := "",
    condition := "good", description := "", targetGoal := none,
    enablePitch := false, context := "trade", llmEnabled := false,
    llmResp := none, marketCtxResult := .ok "", ugttResult := .error () }

/-- Claim C9 counterexample: when only the strategic-game (UGTT) collaborator
throws, the base value does *not* fall back to `market_value × 0.8`: the UGTT
failure is caught in `_calculate_ugtt_bonus` (bonus 0.0) and the base value
keeps its hybrid value (here 100, not 80). -/
theorem C9_counterexample :
    (appraise_item c9Inputs).base_value = 100
  ∧ fallback_value_calculation 100 = 80
  ∧ (100 : ℚ) ≠ 80 := by
  refine ⟨?_, by norm_num [fallback_value_calculation], by norm_num⟩
  show calculate_base_subjective_value false none "win" [] 100 "" "good" (.ok "") = 100
  show hybrid_value_calculation "win" [] 100 "" "good" (.ok "") = 100
  show (100 : ℚ) * calculate_category_interest "win" [] ""
      * get_condition_multiplier "good" * parse_market_context "" = 100
  rw [calculate_category_interest, if_pos rfl]
  rw [get_condition_multiplier]
  rw [if_neg (by decide), if_neg (by decide), if_pos (by decide)]
  rw [parse_market_context, if_pos rfl]
  norm_num

/-- Claim C9 (amended): on the non-LLM path, if the *market-context*
collaborator throws, the base value silently falls back to
`market_value × 0.8`; if the *strategic-game* collaborator throws, the UGTT
bonus silently falls back to 0; in every case the appraisal returns a result
record whose decision is `accept` or `reject` — no exception propagates. -/
theorem C9_amended (inp : AppraisalInputs) (hllm : inp.llmEnabled = false) :
    (∀ e, inp.marketCtxResult = .error e →
        (appraise_item inp).base_value = inp.marketValue * (8/10))
  ∧ (∀ e, inp.ugttResult = .error e → (appraise_item inp).ugtt_bonus = 0)
  ∧ ((appraise_item inp).decision = "accept" ∨ (appraise_item inp).decision = "reject") := by
  refine ⟨?_, ?_, ?_⟩
  · intro e he
    show calculate_base_subjective_value inp.llmEnabled inp.llmResp inp.goal
        inp.tags inp.marketValue inp.category inp.condition inp.marketCtxResult
        = inp.marketValue * (8/10)
    rw [calculate_base_subjective_value, hllm]
    simp only [Bool.false_eq_true, if_false, he]
    rfl
  · intro e he
    show calculate_ugtt_bonus inp.ugttResult = 0
    rw [he]
    rfl
  · show (if 0 < (appraise_item inp).final_net_value then "accept" else "reject")
        = "accept"
      ∨ (if 0 < (appraise_item inp).final_net_value then "accept" else "reject")
        = "reject"
    by_cases hf : 0 < (appraise_item inp).final_net_value
    · left; rw [if_pos hf]
    · right; rw [if_neg hf]

/-- Concrete instance of `C9_amended`: market-context collaborator throwing
makes the base value fall back to `100 × 0.8`. -/
theorem C9_amended_witness :
    (appraise_item { c9Inputs with marketCtxResult := .error () }).base_value
      = 100 * (8/10) :=
  (C9_amended { c9Inputs with marketCtxResult := .error () } rfl).1 () rfl

/-! ### `x402_payment_handler_v2.py` : `X402PaymentHandler` (lines 107-420) -/

/-- Handler metrics (`X402ErrorHandler.metrics`). -/
structure X402Metrics where
  x402_attempts_total : ℕ
  x402_success_total : ℕ
  x402_failed_total : ℕ
  x402_retry_total : ℕ

/-- The receipt fields the claims inspect (`PaymentReceipt`). -/
structure PaymentReceipt where
  payment_id : String
  amount : ℚ
  signature : String
  status : String

/-- Mutable handler state: error-handler metrics plus the receipts list. -/
structure HandlerState where
  metrics : X402Metrics
  receipts : List PaymentReceipt

def freshHandlerState : HandlerState :=
  { metrics := ⟨0, 0, 0, 0⟩, receipts := [] }

def record_attempt (st : HandlerState) : HandlerState :=
  { st with metrics :=
      { st.metrics with x402_attempts_total := st.metrics.x402_attempts_total + 1 } }

def record_success (st : HandlerState) : HandlerState :=
  { st with metrics :=
      { st.metrics with x402_success_total := st.metrics.x402_success_total + 1 } }

def record_failure (st : HandlerState) : HandlerState :=
  { st with metrics :=
      { st.metrics with x402_failed_total := st.metrics.x402_failed_total + 1 } }

/-- Handler configuration (`X402PaymentHandler._load_config`). -/
structure X402Config where
  usdc_address : String
  network : String
  max_retries : ℕ

def defaultX402Config : X402Config :=
  { usdc_address := "0x036CbD53842c5426634e7929541eC2318f3dCF7e",
    network := "base-sepolia", max_retries := 3 }

/-- A decoded 402 response body: `none` fields model absent JSON keys.
`maxAmountRequired` carries the decoded decimal amount. -/
structure Resp402 where
  status : Option String
  maxAmountRequired : Option ℚ
  assetAddress : Option String
  paymentAddress : Option String
  network : Option String
  paymentId : Option String

/-- The validated payment parameters produced by `parse_402_response`. -/
structure PaymentParams where
  status : String
  maxAmountRequired : ℚ
  assetAddress : String
  paymentAddress : String
  network : String
  paymentId : String

/-- Embedding of `X402PaymentHandler.parse_402_response` (lines 166-216):
`payload = none` models a JSON decode failure; otherwise the four required
fields must be present, and `assetAddress`/`network` default from the
config. -/
def parse_402_response (cfg : X402Config) (payload : Option Resp402) :
    Option PaymentParams :=
  match payload with
  | none => none
  | some d =>
    match d.status, d.maxAmountRequired, d.paymentAddress, d.paymentId with
    | some st, some amt, some pa, some pid =>
      some { status := st, maxAmountRequired := amt,
             assetAddress := d.assetAddress.getD cfg.usdc_address,
             paymentAddress := pa, network := d.network.getD cfg.network,
             paymentId := pid }
    | _, _, _, _ => none

/-- The signing collaborator (`self.wallet_manager`): `absent` models a
wallet object without `sign_typed_data` (the handler then fabricates a mock
signature), `throws` a raising call, `returns o` a call returning `o`
(`none` models a falsy result). -/
inductive SignerBehavior where
  | absent
  | throws
  | returns (sig : Option String)

/-- Embedding of `X402PaymentHandler.sign_payment_authorization`
(lines 237-307): on success it appends exactly one `PaymentReceipt` and
counts a success; a raising signer counts a failure; a falsy signature
returns `none` without touching the receipts. -/
def sign_payment_authorization (st : HandlerState) (params : PaymentParams)
    (signer : SignerBehavior) : Option String × HandlerState :=
  let mkReceipt : String → PaymentReceipt := fun sig =>
    { payment_id := params.paymentId, amount := params.maxAmountRequired,
      signature := sig, status := "success" }
  match signer with
  | .throws => (none, record_failure st)
  | .absent =>
    let sig := "0xmocksig"
    (some sig, record_success { st with receipts := st.receipts ++ [mkReceipt sig] })
  | .returns none => (none, st)
  | .returns (some s) =>
    if s = "" then (none, st)
    else (some s, record_success { st with receipts := st.receipts ++ [mkReceipt s] })

/-- The success payload returned by `handle_402_response`. -/
structure PaymentFlowSuccess where
  paymentId : String
  amount : ℚ
  signature : String
  status : String

/-- Embedding of `X402PaymentHandler.handle_402_response` (lines 330-391).
The `while attempt <= max_retries` loop repeats only through the `except` +
`should_retry` path; every modelled outcome of the body returns or breaks
without raising, so the body runs exactly once (when `max_retries ≥ 1`):
the retried request is simulated as succeeding, so a parsed 402 plus a
signature yields a success result in a single attempt. -/
def handle_402_response (cfg : X402Config) (st : HandlerState)
    (payload : Option Resp402) (signer : SignerBehavior) :
    Option PaymentFlowSuccess × HandlerState :=
  if cfg.max_retries = 0 then (none, st)
  else
    let st1 := record_attempt st
    match parse_402_response cfg payload with
    | none => (none, st1)
    | some params =>
      match sign_payment_authorization st1 params signer with
      | (none, st2) => (none, st2)
      | (some sig, st2) =>
        (some { paymentId := params.paymentId,
                amount := params.maxAmountRequired,
                signature := sig, status := "success" }, st2)

/-- A well-formed 402 body (all required fields present). -/
def c8Payload : Option Resp402 :=
  some { status := some "payment_required", maxAmountRequired := some (1/10),
         assetAddress := none, paymentAddress := some "0x742d", network := none,
         paymentId := some "pid-1" }

/-- Claim C8 counterexample: on a parse- and sign-successful 402 flow
(the retried request is simulated as a 200), the handler emits exactly one
receipt but its attempts counter ends at 1, not 2: `record_attempt` runs
once per `handle_402_response` loop iteration and the success path returns
inside the first iteration. -/
theorem C8_counterexample :
    ((handle_402_response defaultX402Config freshHandlerState c8Payload
        (.returns (some "0xsig"))).1).isSome = true
  ∧ (handle_402_response defaultX402Config freshHandlerState c8Payload
        (.returns (some "0xsig"))).2.receipts.length = 1
  ∧ (handle_402_response defaultX402Config freshHandlerState c8Payload
        (.returns (some "0xsig"))).2.metrics.x402_attempts_total = 1
  ∧ (1 : ℕ) ≠ 2 := by
  refine ⟨?_, ?_, ?_, by norm_num⟩ <;>
    simp [handle_402_response, parse_402_response, sign_payment_authorization,
      record_attempt, record_success, c8Payload, defaultX402Config,
      freshHandlerState]

/-- Receipts grow by exactly one when signing yields a signature, and the
attempts metric is untouched by signing. -/
theorem sign_payment_authorization_receipts (st : HandlerState)
    (params : PaymentParams) (signer : SignerBehavior)
    (h : ((sign_payment_authorization st params signer).1).isSome = true) :
    (sign_payment_authorization st params signer).2.receipts.length
      = st.receipts.length + 1
  ∧ (sign_payment_authorization st params signer).2.metrics.x402_attempts_total
      = st.metrics.x402_attempts_total := by
  cases signer with
  | throws => simp [sign_payment_authorization] at h
  | absent => simp [sign_payment_authorization, record_success]
  | returns o =>
    cases o with
    | none => simp [sign_payment_authorization] at h
    | some s =>
      by_cases hs : s = ""
      · simp [sign_payment_authorization, hs] at h
      · simp [sign_payment_authorization, hs, record_success]

/-- Claim C8 (amended): when the 402 body parses and the signer yields a
signature (the retried request being simulated as succeeding), the handler
returns a success result, appends exactly one `PaymentReceipt`, and
increments the attempts counter exactly once — so a fresh handler ends with
`attempts = 1`, not 2. -/
theorem C8_amended (st : HandlerState) (payload : Option Resp402)
    (signer : SignerBehavior) (params : PaymentParams)
    (hp : parse_402_response defaultX402Config payload = some params)
    (hsig : ((sign_payment_authorization (record_attempt st) params signer).1).isSome
        = true) :
    ((handle_402_response defaultX402Config st payload signer).1).isSome = true
  ∧ (handle_402_response defaultX402Config st payload signer).2.receipts.length
      = st.receipts.length + 1
  ∧ (handle_402_response defaultX402Config st payload signer).2.metrics.x402_attempts_total
      = st.metrics.x402_attempts_total + 1 := by
  obtain ⟨hlen, hatt⟩ :=
    sign_payment_authorization_receipts (record_attempt st) params signer hsig
  obtain ⟨sig, hsig'⟩ := Option.isSome_iff_exists.mp hsig
  have hpair : sign_payment_authorization (record_attempt st) params signer
      = (some sig, (sign_payment_authorization (record_attempt st) params signer).2) := by
    rw [← hsig']
  have hiter : handle_402_response defaultX402Config st payload signer
      = (match sign_payment_authorization (record_attempt st) params signer with
         | (none, st2) => (none, st2)
         | (some sg, st2) =>
           (some { paymentId := params.paymentId,
                   amount := params.maxAmountRequired,
                   signature := sg, status := "success" }, st2)) := by
    simp only [handle_402_response, hp]
    rw [if_neg (by decide)]
  rw [hiter, hpair]
  exact ⟨rfl, by simpa [record_attempt] using hlen,
    by simpa [record_attempt] using hatt⟩

/-- Concrete instance of `C8_amended` on a fresh handler: one receipt and
one counted attempt. -/
theorem C8_amended_witness :
    ((handle_402_response defaultX402Config freshHandlerState c8Payload
        .absent).1).isSome = true
  ∧ (handle_402_response defaultX402Config freshHandlerState c8Payload
        .absent).2.receipts.length = freshHandlerState.receipts.length + 1
  ∧ (handle_402_response defaultX402Config freshHandlerState c8Payload
        .absent).2.metrics.x402_attempts_total
      = freshHandlerState.metrics.x402_attempts_total + 1 :=
  C8_amended freshHandlerState c8Payload .absent
    { status := "payment_required", maxAmountRequired := 1/10,
      assetAddress := "0x036CbD53842c5426634e7929541eC2318f3dCF7e",
      paymentAddress := "0x742d", network := "base-sepolia", paymentId := "pid-1" }
    rfl rfl

/-! ### `simulations/coalition_formation.py` : `CoalitionFormation` -/

/-- A coalition proposal dict as built by `propose_coalition`. -/
structure Proposal where
  coalition_id : ℕ
  members : Finset String
  pooled_payoff : ℚ
  payoff_shares : List (String × ℚ)

/-- The mutable state of a `CoalitionFormation` instance:
`coalitions` is the key set of the `self.coalitions` dict and `memberSets`
its values (meaningful on keys in `coalitions`); `agent_to_coalition` is the
reverse index; `payoff_shares` models `coalition_payoff_shares` with the
`.get(..., {})/.get(..., 0)` defaults baked in. -/
structure CFState where
  coalitions : Finset ℕ
  memberSets : ℕ → Finset String
  next_coalition_id : ℕ
  agent_to_coalition : String → Option ℕ
  payoff_shares : ℕ → String → ℚ

def initialState : CFState :=
  { coalitions := ∅, memberSets := fun _ => ∅, next_coalition_id := 1,
    agent_to_coalition := fun _ => none, payoff_shares := fun _ _ => 0 }

/-- `payoff_shares.get(agent, 0)` on the proposal's share dict. -/
def lookupShare (shares : List (String × ℚ)) (a : String) : ℚ :=
  match shares.find? (fun p => decide (p.1 = a)) with
  | some p => p.2
  | none => 0

/-- Embedding of `CoalitionFormation.propose_coalition` (lines 29-64).
`pooled_payoff` stands for the simulated random sum; `repOf` is the
reputation lookup handed to the negotiation module.  The registry state is
not mutated — in particular `next_coalition_id` is *not* incremented. -/
def propose_coalition (s : CFState) (repOf : String → Option ℚ)
    (proposing_agent_id : String) (candidate_agent_ids : List String)
    (pooled_payoff : ℚ) : Option Proposal :=
  let members := insert proposing_agent_id candidate_agent_ids.toFinset
  if members.card < 3 then none
  else if ∃ a ∈ members, (s.agent_to_coalition a).isSome = true then none
  else some { coalition_id := s.next_coalition_id, members := members,
              pooled_payoff := pooled_payoff,
              payoff_shares := propose_split repOf pooled_payoff
                (members.sort (· ≤ ·)) }

/-- Embedding of `CoalitionFormation.accept_coalition` (lines 66-93). -/
def accept_coalition (s : CFState) (p : Proposal) : CFState × Bool :=
  if ∃ a ∈ p.members, (s.agent_to_coalition a).isSome = true then (s, false)
  else
    ({ coalitions := insert p.coalition_id s.coalitions,
       memberSets := fun c => if c = p.coalition_id then p.members else s.memberSets c,
       next_coalition_id := s.next_coalition_id,
       agent_to_coalition := fun a =>
         if a ∈ p.members then some p.coalition_id else s.agent_to_coalition a,
       payoff_shares := fun c =>
         if c = p.coalition_id then lookupShare p.payoff_shares
         else s.payoff_shares c }, true)

/-- Embedding of `CoalitionFormation.dissolve_coalition` (lines 118-128). -/
def dissolve_coalition (s : CFState) (coalition_id : ℕ) : CFState :=
  if coalition_id ∈ s.coalitions then
    { coalitions := s.coalitions.erase coalition_id,
      memberSets := s.memberSets,
      next_coalition_id := s.next_coalition_id,
      agent_to_coalition := fun a =>
        if a ∈ s.memberSets coalition_id then none else s.agent_to_coalition a,
      payoff_shares := fun c =>
        if c = coalition_id then fun _ => 0 else s.payoff_shares c }
  else s

/-- Embedding of `CoalitionFormation.agent_leave_coalition` (lines 130-154).
When the reverse index points at a coalition that no longer lists the agent
(or no longer exists), `coalition_members.remove(agent_id)` raises
`KeyError` before any mutation, so the state is returned unchanged. -/
def agent_leave_coalition (s : CFState) (agent_id : String)
    (payoff_threshold : ℚ) : CFState × Bool :=
  match s.agent_to_coalition agent_id with
  | none => (s, false)
  | some c =>
    if s.payoff_shares c agent_id < payoff_threshold then
      if c ∈ s.coalitions ∧ agent_id ∈ s.memberSets c then
        let m := (s.memberSets c).erase agent_id
        let s1 : CFState :=
          { coalitions := s.coalitions,
            memberSets := fun c2 => if c2 = c then m else s.memberSets c2,
            next_coalition_id := s.next_coalition_id,
            agent_to_coalition := fun a =>
              if a = agent_id then none else s.agent_to_coalition a,
            payoff_shares := s.payoff_shares }
        if m.card < 3 then (dissolve_coalition s1 c, true) else (s1, true)
      else (s, false)
    else (s, false)

/-- Embedding of `CoalitionFormation.merge_coalitions` (lines 156-183):
`self.coalitions.get(id)` yields `None` for a missing key, and both `None`
and an empty set are falsy, so a missing coalition and an empty one reject
alike.  This is the only operation that increments `next_coalition_id`. -/
def merge_coalitions (s : CFState) (cid1 cid2 : ℕ) : CFState × Option ℕ :=
  let members1 := if cid1 ∈ s.coalitions then s.memberSets cid1 else ∅
  let members2 := if cid2 ∈ s.coalitions then s.memberSets cid2 else ∅
  if members1 = ∅ ∨ members2 = ∅ then (s, none)
  else
    let combined := members1 ∪ members2
    if combined.card < 3 then (s, none)
    else
      let s1 := dissolve_coalition s cid1
      let s2 := dissolve_coalition s1 cid2
      let newId := s2.next_coalition_id
      ({ coalitions := insert newId s2.coalitions,
         memberSets := fun c => if c = newId then combined else s2.memberSets c,
         next_coalition_id := s2.next_coalition_id + 1,
         agent_to_coalition := fun a =>
           if a ∈ combined then some newId else s2.agent_to_coalition a,
         payoff_shares := s2.payoff_shares }, some newId)

/-- The states reachable from a fresh `CoalitionFormation` by any sequence of
operations.  `propose_coalition` does not mutate the state, so it needs no
constructor; `accept` ranges over arbitrary proposals, which covers every
proposal a `propose_coalition` call (on this or an earlier state) returned. -/
inductive Reach : CFState → Prop where
  | init : Reach initialState
  | accept (s : CFState) (p : Proposal) : Reach s → Reach (accept_coalition s p).1
  | dissolve (s : CFState) (c : ℕ) : Reach s → Reach (dissolve_coalition s c)
  | leave (s : CFState) (a : String) (t : ℚ) :
      Reach s → Reach (agent_leave_coalition s a t).1
  | merge (s : CFState) (c1 c2 : ℕ) : Reach s → Reach (merge_coalitions s c1 c2).1

/-- Every member of a registered coalition is tracked by the reverse index
(it maps to *some* coalition, not necessarily this one). -/
def MembersTracked (s : CFState) : Prop :=
  ∀ c ∈ s.coalitions, ∀ a ∈ s.memberSets c, (s.agent_to_coalition a).isSome = true

/-- Distinct registered coalitions have disjoint member sets. -/
def CoalitionsDisjoint (s : CFState) : Prop :=
  ∀ c1 ∈ s.coalitions, ∀ c2 ∈ s.coalitions, c1 ≠ c2 →
    Disjoint (s.memberSets c1) (s.memberSets c2)

theorem dissolve_memberSets (s : CFState) (c : ℕ) :
    (dissolve_coalition s c).memberSets = s.memberSets := by
  unfold dissolve_coalition
  by_cases h : c ∈ s.coalitions <;> simp [h]

theorem dissolve_coalitions_eq (s : CFState) (c : ℕ) :
    (dissolve_coalition s c).coalitions = s.coalitions.erase c := by
  unfold dissolve_coalition
  by_cases h : c ∈ s.coalitions <;> simp [h, Finset.erase_eq_of_not_mem]

theorem dissolve_preserves (s : CFState) (c : ℕ)
    (h1 : MembersTracked s) (h2 : CoalitionsDisjoint s) :
    MembersTracked (dissolve_coalition s c)
  ∧ CoalitionsDisjoint (dissolve_coalition s c) := by
  unfold dissolve_coalition
  by_cases hc : c ∈ s.coalitions
  · rw [if_pos hc]
    constructor
    · intro c' hc' a ha
      dsimp only at hc' ha ⊢
      have hne : c' ≠ c := (Finset.mem_erase.mp hc').1
      have hmem : c' ∈ s.coalitions := (Finset.mem_erase.mp hc').2
      have hna : a ∉ s.memberSets c := fun hac =>
        (Finset.disjoint_left.mp (h2 c' hmem c hc hne)) ha hac
      rw [if_neg hna]
      exact h1 c' hmem a ha
    · intro c1 hc1 c2 hc2 hne
      dsimp only at hc1 hc2 ⊢
      exact h2 c1 (Finset.mem_erase.mp hc1).2 c2 (Finset.mem_erase.mp hc2).2 hne
  · rw [if_neg hc]
    exact ⟨h1, h2⟩

theorem accept_preserves (s : CFState) (p : Proposal)
    (h1 : MembersTracked s) (h2 : CoalitionsDisjoint s) :
    MembersTracked (accept_coalition s p).1
  ∧ CoalitionsDisjoint (accept_coalition s p).1 := by
  unfold accept_coalition
  by_cases hex : ∃ a ∈ p.members, (s.agent_to_coalition a).isSome = true
  · rw [if_pos hex]
    exact ⟨h1, h2⟩
  · rw [if_neg hex]
    push_neg at hex
    constructor
    · intro c hc a ha
      dsimp only at hc ha ⊢
      by_cases hap : a ∈ p.members
      · rw [if_pos hap]
        rfl
      · rw [if_neg hap]
        by_cases hcp : c = p.coalition_id
        · rw [if_pos hcp] at ha
          exact absurd ha hap
        · rw [if_neg hcp] at ha
          exact h1 c (Finset.mem_of_mem_insert_of_ne hc hcp) a ha
    · intro c1 hc1 c2 hc2 hne
      dsimp only at hc1 hc2 ⊢
      by_cases h1p : c1 = p.coalition_id <;> by_cases h2p : c2 = p.coalition_id
      · exact absurd (h1p.trans h2p.symm) hne
      · rw [if_pos h1p, if_neg h2p]
        refine Finset.disjoint_left.mpr (fun a hap hac => ?_)
        exact hex a hap (h1 c2 (Finset.mem_of_mem_insert_of_ne hc2 h2p) a hac)
      · rw [if_neg h1p, if_pos h2p]
        refine Finset.disjoint_right.mpr (fun a hap hac => ?_)
        exact hex a hap (h1 c1 (Finset.mem_of_mem_insert_of_ne hc1 h1p) a hac)
      · rw [if_neg h1p, if_neg h2p]
        exact h2 c1 (Finset.mem_of_mem_insert_of_ne hc1 h1p) c2
          (Finset.mem_of_mem_insert_of_ne hc2 h2p) hne

theorem leave_core_preserves (s : CFState) (aid : String) (c : ℕ)
    (hcs : c ∈ s.coalitions) (hams : aid ∈ s.memberSets c)
    (h1 : MembersTracked s) (h2 : CoalitionsDisjoint s) :
    MembersTracked
      { coalitions := s.coalitions,
        memberSets := fun c2 =>
          if c2 = c then (s.memberSets c).erase aid else s.memberSets c2,
        next_coalition_id := s.next_coalition_id,
        agent_to_coalition := fun a =>
          if a = aid then none else s.agent_to_coalition a,
        payoff_shares := s.payoff_shares }
  ∧ CoalitionsDisjoint
      { coalitions := s.coalitions,
        memberSets := fun c2 =>
          if c2 = c then (s.memberSets c).erase aid else s.memberSets c2,
        next_coalition_id := s.next_coalition_id,
        agent_to_coalition := fun a =>
          if a = aid then none else s.agent_to_coalition a,
        payoff_shares := s.payoff_shares } := by
  constructor
  · intro c' hc' a ha
    dsimp only at hc' ha ⊢
    have hmem : a ∈ s.memberSets c' ∧ a ≠ aid := by
      by_cases hcc : c' = c
      · rw [if_pos hcc] at ha
        subst hcc
        exact ⟨(Finset.mem_erase.mp ha).2, (Finset.mem_erase.mp ha).1⟩
      · rw [if_neg hcc] at ha
        refine ⟨ha, fun heq => ?_⟩
        subst heq
        exact (Finset.disjoint_left.mp (h2 c' hc' c hcs hcc)) ha hams
    rw [if_neg hmem.2]
    exact h1 c' hc' a hmem.1
  · intro c1 hc1 c2 hc2 hne
    dsimp only at hc1 hc2 ⊢
    have herase : ∀ d : ℕ,
        (if d = c then (s.memberSets c).erase aid else s.memberSets d)
          ⊆ s.memberSets d := by
      intro d
      by_cases hdc : d = c
      · subst hdc
        rw [if_pos rfl]
        exact Finset.erase_subset _ _
      · rw [if_neg hdc]
    exact Finset.disjoint_of_subset_left (herase c1)
      (Finset.disjoint_of_subset_right (herase c2) (h2 c1 hc1 c2 hc2 hne))

theorem leave_preserves (s : CFState) (aid : String) (t : ℚ)
    (h1 : MembersTracked s) (h2 : CoalitionsDisjoint s) :
    MembersTracked (agent_leave_coalition s aid t).1
  ∧ CoalitionsDisjoint (agent_leave_coalition s aid t).1 := by
  unfold agent_leave_coalition
  cases hac : s.agent_to_coalition aid with
  | none => exact ⟨h1, h2⟩
  | some c =>
    dsimp only
    by_cases hth : s.payoff_shares c aid < t
    · rw [if_pos hth]
      by_cases hmem : c ∈ s.coalitions ∧ aid ∈ s.memberSets c
      · rw [if_pos hmem]
        have hcore := leave_core_preserves s aid c hmem.1 hmem.2 h1 h2
        by_cases hcard : ((s.memberSets c).erase aid).card < 3
        · rw [if_pos hcard]
          exact dissolve_preserves _ c hcore.1 hcore.2
        · rw [if_neg hcard]
          exact hcore
      · rw [if_neg hmem]
        exact ⟨h1, h2⟩
    · rw [if_neg hth]
      exact ⟨h1, h2⟩

theorem merge_preserves (s : CFState) (c1 c2 : ℕ)
    (h1 : MembersTracked s) (h2 : CoalitionsDisjoint s) :
    MembersTracked (merge_coalitions s c1 c2).1
  ∧ CoalitionsDisjoint (merge_coalitions s c1 c2).1 := by
  unfold merge_coalitions
  by_cases hsome : (if c1 ∈ s.coalitions then s.memberSets c1 else ∅) = ∅
      ∨ (if c2 ∈ s.coalitions then s.memberSets c2 else ∅) = ∅
  · rw [if_pos hsome]
    exact ⟨h1, h2⟩
  · rw [if_neg hsome]
    push_neg at hsome
    obtain ⟨hne1, hne2⟩ := hsome
    have hc1 : c1 ∈ s.coalitions := by
      by_contra h
      exact hne1 (if_neg h)
    have hc2 : c2 ∈ s.coalitions := by
      by_contra h
      exact hne2 (if_neg h)
    rw [if_pos hc1, if_pos hc2]
    by_cases hcard : (s.memberSets c1 ∪ s.memberSets c2).card < 3
    · rw [if_pos hcard]
      exact ⟨h1, h2⟩
    · rw [if_neg hcard]
      have hd1 := dissolve_preserves s c1 h1 h2
      have hd2 := dissolve_preserves (dissolve_coalition s c1) c2 hd1.1 hd1.2
      have hms : (dissolve_coalition (dissolve_coalition s c1) c2).memberSets
          = s.memberSets := by
        rw [dissolve_memberSets, dissolve_memberSets]
      have hco : (dissolve_coalition (dissolve_coalition s c1) c2).coalitions
          = (s.coalitions.erase c1).erase c2 := by
        rw [dissolve_coalitions_eq, dissolve_coalitions_eq]
      constructor
      · intro c hc a ha
        dsimp only at hc ha ⊢
        by_cases hacu : a ∈ s.memberSets c1 ∪ s.memberSets c2
        · rw [if_pos hacu]
          rfl
        · rw [if_neg hacu]
          by_cases hcn : c = (dissolve_coalition (dissolve_coalition s c1) c2).next_coalition_id
          · rw [if_pos hcn] at ha
            exact absurd ha hacu
          · rw [if_neg hcn] at ha
            exact hd2.1 c (Finset.mem_of_mem_insert_of_ne hc hcn) a ha
      · intro d1 hd1' d2 hd2' hned
        dsimp only at hd1' hd2' ⊢
        have hdisj : ∀ d : ℕ,
            d ∈ (dissolve_coalition (dissolve_coalition s c1) c2).coalitions →
            Disjoint (s.memberSets c1 ∪ s.memberSets c2)
              ((dissolve_coalition (dissolve_coalition s c1) c2).memberSets d) := by
          intro d hd
          rw [hco] at hd
          have hdc2 : d ≠ c2 := (Finset.mem_erase.mp hd).1
          have hdc1 : d ≠ c1 := (Finset.mem_erase.mp (Finset.mem_erase.mp hd).2).1
          have hds : d ∈ s.coalitions := (Finset.mem_erase.mp (Finset.mem_erase.mp hd).2).2
          rw [hms]
          refine Finset.disjoint_union_left.mpr ⟨?_, ?_⟩
          · exact h2 c1 hc1 d hds (fun h => hdc1 h.symm)
          · exact h2 c2 hc2 d hds (fun h => hdc2 h.symm)
        set nid := (dissolve_coalition (dissolve_coalition s c1) c2).next_coalition_id with hnid
        by_cases h1n : d1 = nid <;> by_cases h2n : d2 = nid
        · exact absurd (h1n.trans h2n.symm) hned
        · rw [if_pos h1n, if_neg h2n]
          exact hdisj d2 (Finset.mem_of_mem_insert_of_ne hd2' h2n)
        · rw [if_neg h1n, if_pos h2n]
          exact (hdisj d1 (Finset.mem_of_mem_insert_of_ne hd1' h1n)).symm
        · rw [if_neg h1n, if_neg h2n]
          exact hd2.2 d1 (Finset.mem_of_mem_insert_of_ne hd1' h1n) d2
            (Finset.mem_of_mem_insert_of_ne hd2' h2n) hned

theorem reach_invariants (s : CFState) (h : Reach s) :
    MembersTracked s ∧ CoalitionsDisjoint s := by
  induction h with
  | init =>
    exact ⟨fun c hc => absurd hc (Finset.not_mem_empty c),
           fun c hc => absurd hc (Finset.not_mem_empty c)⟩
  | accept s p _ ih => exact accept_preserves s p ih.1 ih.2
  | dissolve s c _ ih => exact dissolve_preserves s c ih.1 ih.2
  | leave s a t _ ih => exact leave_preserves s a t ih.1 ih.2
  | merge s c1 c2 _ ih => exact merge_preserves s c1 c2 ih.1 ih.2

/-- Claim C2: starting from an empty `CoalitionFormation` state, after any
sequence of propose/accept/leave/merge/dissolve operations, every agent
appears in the member set of at most one registered coalition. -/
theorem C2_single_membership (s : CFState) (h : Reach s) (a : String) :
    (s.coalitions.filter (fun c => a ∈ s.memberSets c)).card ≤ 1 := by
  by_contra hgt
  push_neg at hgt
  obtain ⟨c1, hc1, c2, hc2, hne⟩ := Finset.one_lt_card.mp hgt
  obtain ⟨hc1s, hc1m⟩ := Finset.mem_filter.mp hc1
  obtain ⟨hc2s, hc2m⟩ := Finset.mem_filter.mp hc2
  exact (Finset.disjoint_left.mp
    ((reach_invariants s h).2 c1 hc1s c2 hc2s hne)) hc1m hc2m

def c10Rep : String → Option ℚ := fun _ => none

def c10Junk : Proposal :=
  { coalition_id := 0, members := ∅, pooled_payoff := 0, payoff_shares := [] }

def c10P1 : Proposal :=
  (propose_coalition initialState c10Rep "A" ["B", "C"] 6).getD c10Junk

def c10S1 : CFState := (accept_coalition initialState c10P1).1

def c10P2 : Proposal :=
  (propose_coalition c10S1 c10Rep "D" ["E", "F"] 6).getD c10Junk

def c10S2 : CFState := (accept_coalition c10S1 c10P2).1

/-- Concrete instance of `C2_single_membership` after accepting the first
proposal: agent "A" sits in at most one registered coalition. -/
theorem C2_single_membership_witness :
    ((c10S1.coalitions.filter (fun c => "A" ∈ c10S1.memberSets c)).card ≤ 1) :=
  C2_single_membership c10S1 (Reach.accept initialState c10P1 Reach.init) "A"

/-- Claim C10: `propose_coalition` never increments `next_coalition_id`
(only `merge_coalitions` does), so after accepting the first proposal
(id 1, members A/B/C), a second proposal for D/E/F again carries id 1 — the
id of the currently active coalition — and accepting it overwrites
coalition 1 in the registry, leaving `agent_to_coalition["A"] = 1` while "A"
is no longer a member of `coalitions[1]`: the reverse index is inconsistent
with the registry. -/
theorem C10_code_bug :
    ((propose_coalition initialState c10Rep "A" ["B", "C"] 6).isSome = true)
  ∧ c10P1.coalition_id = 1
  ∧ 1 ∈ c10S1.coalitions
  ∧ ((propose_coalition c10S1 c10Rep "D" ["E", "F"] 6).isSome = true)
  ∧ c10P2.coalition_id = 1
  ∧ c10S2.agent_to_coalition "A" = some 1
  ∧ "A" ∉ c10S2.memberSets 1 := by
  decide

end RedPaperclip
